import Mathlib

/- Shallow embedding of the customer-support agent pipeline.

   Source: src/unnamed/part_001. The primary implementation is lines 1-552;
   an older duplicate variant occupies lines 553-1030 and is embedded where
   a claim refers to it (the response preview of its Slack notifier, its
   orchestrator with the unconditional `emailed` flag, and its guard-less
   email sender).

   Modelling conventions:
   - JavaScript strings are lists of characters (`Str`), so JS `.slice(0, n)`
     is `List.take n` and `.length` is `List.length`.
   - A possibly-undefined / possibly-null string field is `Option Str`
     (`none` = undefined or null); JS truthiness of such a value is
     "present and not the empty string".
   - `JSON.parse` is abstracted as a function `Str -> Option CustObj`
     supplied in the environment: `some o` means the string parses to the
     object `o`, `none` means the parse throws (the code then substitutes
     the empty object).
   - Each awaited external call of the orchestrator is modelled by an
     `Except Err _` outcome recorded in an environment (`Env`); a rejected
     promise is `Except.error`.  The orchestrator also returns a trace of
     the step calls it performed (`List CallEv`). -/

abbrev Str := List Char

/-- JS truthiness of a possibly-undefined string value: present and non-empty. -/
def optTruthy : Option Str → Bool
  | none => false
  | some s => !s.isEmpty

/-- JS `a || b` where `a` is a possibly-undefined string and `b` a string. -/
def jsOr (a : Option Str) (b : Str) : Str :=
  match a with
  | none => b
  | some s => if s.isEmpty then b else s

/-- JS `a || b` on two strings. -/
def jsOrStr (a b : Str) : Str :=
  if a.isEmpty then b else a

/-- JS `a || null` on a possibly-undefined string (falsy collapses to null). -/
def jsOrNull (a : Option Str) : Option Str :=
  if optTruthy a then a else none

/-- JS `(a || '')` on a possibly-null string. -/
def jsOrEmpty (a : Option Str) : Str :=
  match a with
  | none => []
  | some s => s

/-- JS `String.prototype.trim`: drop whitespace from both ends. -/
def jsTrim (s : Str) : Str :=
  ((s.dropWhile Char.isWhitespace).reverse.dropWhile Char.isWhitespace).reverse

/-- JS `!!(a && a.trim())`: the value is a non-null, non-empty string whose
trimmed form is also non-empty (i.e. it contains a non-whitespace character). -/
def respTruthyTrim : Option Str → Bool
  | none => false
  | some s => !s.isEmpty && !(jsTrim s).isEmpty

/-- JS template interpolation of a possibly-undefined value:
`undefined` prints as the string "undefined". -/
def jsTemplateOpt : Option Str → Str
  | some s => s
  | none => "undefined".data

/-- The shape of a parsed / supplied customer object: the nested fields read
by `normalizeCustomer` (source lines 112-128): `c.name`, `c.Name`,
`c.email`, `c.Email`. -/
structure CustObj where
  name : Option Str := none
  Name : Option Str := none
  email : Option Str := none
  Email : Option Str := none
deriving DecidableEq

/-- The dynamic value of the `customer` / `Customer` field of a ticket:
absent, an object, or a JSON-encoded string (source lines 101-110). -/
inductive CustField
  | undef
  | objF (o : CustObj)
  | strF (s : Str)
deriving DecidableEq

/-- JS truthiness of a `customer` field value: objects are always truthy,
strings are truthy when non-empty, undefined is falsy. -/
def custTruthy : CustField → Bool
  | .undef => false
  | .objF _ => true
  | .strF s => !s.isEmpty

/-- JS `a || b` on two customer-field values. -/
def jsOrCust (a b : CustField) : CustField :=
  if custTruthy a then a else b

/-- One entry of `ticket.messages`: may carry `body` and/or `text`. -/
structure Msg where
  body : Option Str := none
  text : Option Str := none
deriving DecidableEq

/-- A ticket as read by the pipeline: `id`, `subject`, `source`, the
`customer` / `Customer` field, the top-level name/email aliases read by
`normalizeCustomer` (source lines 112-128), and the message list. -/
structure Ticket where
  id : Option Str := none
  subject : Option Str := none
  source : Option Str := none
  customer : CustField := .undef
  Customer : CustField := .undef
  customer_name : Option Str := none
  CustomerName : Option Str := none
  Name : Option Str := none
  name : Option Str := none
  customer_email : Option Str := none
  CustomerEmail : Option Str := none
  Email : Option Str := none
  email : Option Str := none
  messages : List Msg := []
deriving DecidableEq

/-- The normalized `{name, email}` pair; both fields are strings, never null. -/
structure Customer where
  name : Str
  email : Str
deriving DecidableEq

/-- Translation of `normalizeCustomer` (source lines 99-131).
`jsonParse` abstracts `JSON.parse` restricted to object results; `none`
covers a throwing parse, in which case the code substitutes `{}`. -/
def normalizeCustomer (jsonParse : Str → Option CustObj) (t : Ticket) : Customer :=
  let c0 := jsOrCust t.customer (jsOrCust t.Customer (CustField.objF {}))
  let c : CustObj :=
    match c0 with
    | .strF s => (jsonParse s).getD {}
    | .objF o => o
    | .undef => {}
  let name :=
    jsOr c.name (jsOr c.Name (jsOr t.customer_name (jsOr t.CustomerName
      (jsOr t.Name (jsOr t.name [])))))
  let email :=
    jsOr c.email (jsOr c.Email (jsOr t.customer_email (jsOr t.CustomerEmail
      (jsOr t.Email (jsOr t.email [])))))
  { name := jsOrStr name [], email := jsOrStr email [] }

/-- Spec-side description of alias selection (section 4.1 of the spec): the
first present-and-non-empty value in the precedence list, else the empty
string.  Used only to compare against `normalizeCustomer`. -/
def firstPresent : List (Option Str) → Str
  | [] => []
  | a :: rest =>
    match a with
    | none => firstPresent rest
    | some s => if s.isEmpty then firstPresent rest else s

theorem firstPresent_cons (a : Option Str) (l : List (Option Str)) :
    firstPresent (a :: l) = jsOr a (firstPresent l) := by
  cases a <;> simp [firstPresent, jsOr]

theorem firstPresent_nil : firstPresent [] = [] := rfl

theorem jsOrStr_nil (a : Str) : jsOrStr a [] = a := by
  cases a <;> simp [jsOrStr]

/-- Caller options of `processTicket` with the destructuring defaults of
source line 183: `skipEmail = false, skipAI = false, draftText = null`. -/
structure Opts where
  skipEmail : Bool := false
  skipAI : Bool := false
  draftText : Option Str := none
deriving DecidableEq

/-- The static context object of `getKnowledgeBaseContext` (source lines 282-298). -/
structure KBContext where
  commonIssues : List Str
  platformFeatures : List Str
deriving DecidableEq

/-- Translation of `getKnowledgeBaseContext` (source lines 282-298): a pure
stub returning a fixed object; it cannot fail. -/
def getKnowledgeBaseContext : KBContext :=
  { commonIssues :=
      ["Account setup and onboarding".data,
       "Feature usage and best practices".data,
       "Integration troubleshooting".data,
       "Billing and subscription questions".data]
    platformFeatures :=
      ["User management".data,
       "API documentation".data,
       "Dashboard customization".data,
       "Data export/import".data] }

/-- A thrown JS error, identified by its message. -/
structure Err where
  msg : Str
deriving DecidableEq

/-- The `{channel, ts}` object returned by `notifySlackChannel` on success
(source line 469). -/
structure SlackInfo where
  channel : Option Str := none
  ts : Option Str := none
deriving DecidableEq

/-- The `flags` sub-object of the pipeline summary (source line 234). -/
structure Flags where
  skip_email : Bool
  skip_ai : Bool
  has_draft : Bool
deriving DecidableEq

/-- The `summary` sub-object of the pipeline result (source lines 226-235). -/
structure Summary where
  source : Option Str
  subject : Option Str
  customer : Customer
  message_preview : Str
  response_preview : Str
  flags : Flags
deriving DecidableEq

/-- The object returned by `processTicket` on success (source lines 221-237). -/
structure PipelineResult where
  ok : Bool
  ticketId : Option Str
  used_ai : Bool
  emailed : Bool
  summary : Summary
  slack : Option SlackInfo
deriving DecidableEq

/-- One awaited step call performed by the orchestrator, for the call trace. -/
inductive CallEv
  | storeDoc
  | kbFetch
  | genAI
  | sendEmail
  | notifySuccess
  | notifyError
  | kbUpdate
deriving DecidableEq

/-- Environment of one `processTicket` run: the abstracted `JSON.parse` and
the outcome each awaited step call would produce if performed.
`notifyError` is the outcome of the error-path Slack notification attempted
inside the catch block (source line 241). -/
structure Env where
  jsonParse : Str → Option CustObj
  storeDoc : Except Err Unit
  kbFetch : Except Err KBContext
  genAI : Except Err Str
  sendEmail : Except Err Unit
  notifySuccess : Except Err (Option SlackInfo)
  notifyError : Except Err (Option SlackInfo)
  kbUpdate : Except Err Unit

/-- JS `((ticket?.messages?.[0]?.body || ticket?.messages?.[0]?.text || '') + '')`
(source lines 230-232 and 427-429). -/
def firstMsgText (t : Ticket) : Str :=
  match t.messages.head? with
  | none => []
  | some m => jsOr m.body (jsOr m.text [])

/-- Whether step 3 actually invokes response generation (source lines 201-208):
only when the draft text is falsy and `skipAI` is not set. -/
def genCalled (o : Opts) : Bool :=
  !(optTruthy o.draftText) && !o.skipAI

/-- Trace contribution of step 3: a `genAI` call exactly when generation runs. -/
def traceResolve (o : Opts) : List CallEv :=
  if genCalled o then [CallEv.genAI] else []

/-- Translation of step 3 of `processTicket` (source lines 200-208):
`let aiResponse = draftText; if (!aiResponse) { if (!skipAI) aiResponse = await
generateAIResponse(...); else aiResponse = ''; }`.  `genOutcome` is the
outcome of the generation call when it is performed. -/
def resolveResponse (genOutcome : Except Err Str) (o : Opts) : Except Err (Option Str) :=
  if optTruthy o.draftText then .ok o.draftText
  else if !o.skipAI then genOutcome.map some
  else .ok (some [])

/-- The success-path return object of `processTicket` (source lines 221-237). -/
def mkResult (t : Ticket) (o : Opts) (customer : Customer) (aiResponse : Option Str)
    (slackInfo : Option SlackInfo) : PipelineResult :=
  { ok := true
    ticketId := jsOrNull t.id
    used_ai := !o.skipAI && !(optTruthy o.draftText)
    emailed := !o.skipEmail && respTruthyTrim aiResponse
    summary :=
      { source := jsOrNull t.source
        subject := jsOrNull t.subject
        customer := customer
        message_preview := (firstMsgText t).take 180
        response_preview := (jsOrEmpty aiResponse).take 180
        flags :=
          { skip_email := o.skipEmail
            skip_ai := o.skipAI
            has_draft := optTruthy o.draftText } }
    slack := slackInfo }

/-- One awaited step inside the try block of `processTicket`: on a rejection
the catch block (source lines 238-244) performs one best-effort error
notification (its own outcome discarded, i.e. any failure swallowed) and
re-raises the original error; on success the continuation runs. -/
def runStep {α : Type} (tr : List CallEv) (ev : List CallEv) (out : Except Err α)
    (k : α → List CallEv → Except Err PipelineResult × List CallEv) :
    Except Err PipelineResult × List CallEv :=
  match out with
  | .error e => (.error e, tr ++ ev ++ [CallEv.notifyError])
  | .ok a => k a (tr ++ ev)

/-- Translation of `processTicket` (source lines 182-245), primary variant.
Steps in order: normalize customer, store in doc, fetch KB context, resolve
the response (draft / generation / empty), send email unless skipped, notify
Slack, update the KB stub, and return the result object.  Any step rejection
falls to the catch block modelled in `runStep`. -/
def processTicket (env : Env) (t : Ticket) (o : Opts) :
    Except Err PipelineResult × List CallEv :=
  let customer := normalizeCustomer env.jsonParse t
  runStep [] [CallEv.storeDoc] env.storeDoc fun _ tr =>
  runStep tr [CallEv.kbFetch] env.kbFetch fun _ tr =>
  runStep tr (traceResolve o) (resolveResponse env.genAI o) fun aiResponse tr =>
  runStep tr (if o.skipEmail then [] else [CallEv.sendEmail])
      (if o.skipEmail then Except.ok () else env.sendEmail) fun _ tr =>
  runStep tr [CallEv.notifySuccess] env.notifySuccess fun slackInfo tr =>
  runStep tr [CallEv.kbUpdate] env.kbUpdate fun _ tr =>
  (.ok (mkResult t o customer aiResponse slackInfo), tr)

/-- The raw email content built by `sendGmailResponse` (source lines 363-375);
the subsequent base64 encoding is an external wire format and not modelled. -/
def emailContent (t : Ticket) (c : Customer) (response : Str) : Str :=
  "To: ".data ++ c.email ++
  "\nSubject: Re: ".data ++ jsTemplateOpt t.subject ++
  "\nContent-Type: text/plain; charset=utf-8\n\nHi ".data ++ jsOrStr c.name [] ++
  ",\n\n".data ++ response ++
  "\n\nBest regards,\nCustomer Support Team\n\n---\nThis is an automated response. If you need further assistance, please reply to this email.".data

/-- Translation of `sendGmailResponse` (source lines 355-387), primary variant.
The returned value is the raw content handed to the external send call, or
`none` when the function returns early without invoking the send capability
(`if (!response || !response.trim()) return;`).  The try/catch around the
send call only swallows a send failure and does not affect whether the send
was invoked. -/
def sendGmailResponse (t : Ticket) (c : Customer) (response : Option Str) : Option Str :=
  match response with
  | none => none
  | some s =>
    if s.isEmpty || (jsTrim s).isEmpty then none
    else some (emailContent t c s)

/-- The customer-message excerpt of the Slack notification (source lines
427-429, identical in the variant at lines 858-860): the first message body
truncated with `.slice(0, 500)`. -/
def slackCustomerMessage (t : Ticket) : Str :=
  (firstMsgText t).take 500

/-- The response preview of the VARIANT Slack notifier (source lines 904-905):
`(response || '').slice(0, 200) + ((response || '').length > 200 ? '...' : '')`.
The primary notifier posts no response preview at all. -/
def variantResponsePreview (response : Option Str) : Str :=
  (jsOrEmpty response).take 200 ++
    (if 200 < (jsOrEmpty response).length then "...".data else [])

/-- JS `ticket?.customer?.name`: the nested name of the `customer` field when
it is an object, undefined otherwise (property access on a string or on an
absent value yields undefined). -/
def custFieldName : CustField → Option Str
  | .objF o => o.name
  | _ => none

/-- JS `ticket?.customer?.email`, as for `custFieldName`. -/
def custFieldEmail : CustField → Option Str
  | .objF o => o.email
  | _ => none

/-- The fixed fallback sentence of the VARIANT `processTicket` when `skipAI`
is set and no draft is present (source lines 719-721). -/
def variantFallback : Str :=
  "Thanks for reaching out! Our team has received your request and will follow up shortly with details.".data

/-- Step 3 of the VARIANT `processTicket` (source lines 714-722): like the
primary except that the skip-AI branch substitutes a fixed fallback sentence
instead of the empty string. -/
def resolveResponseVariant (genOutcome : Except Err Str) (o : Opts) : Except Err (Option Str) :=
  if optTruthy o.draftText then .ok o.draftText
  else if !o.skipAI then genOutcome.map some
  else .ok (some variantFallback)

/-- The `customer` sub-object of the VARIANT summary (source lines 743-746):
raw nested fields with `|| null`, not the normalized pair. -/
structure VariantCustomer where
  name : Option Str
  email : Option Str
deriving DecidableEq

/-- The `summary` sub-object of the VARIANT result (source lines 740-750). -/
structure VariantSummary where
  source : Option Str
  subject : Option Str
  customer : VariantCustomer
  message_preview : Str
  response_preview : Str
  flags : Flags
deriving DecidableEq

/-- The object returned by the VARIANT `processTicket` on success
(source lines 735-752). -/
structure VariantResult where
  ok : Bool
  ticketId : Option Str
  used_ai : Bool
  emailed : Bool
  summary : VariantSummary
  slack : Option SlackInfo
deriving DecidableEq

/-- The success-path return object of the VARIANT `processTicket` (source
lines 735-752).  Note `emailed := !skipEmail` with no response condition
(line 739). -/
def mkVariantResult (t : Ticket) (o : Opts) (aiResponse : Option Str)
    (slackInfo : Option SlackInfo) : VariantResult :=
  { ok := true
    ticketId := jsOrNull t.id
    used_ai := !o.skipAI && !(optTruthy o.draftText)
    emailed := !o.skipEmail
    summary :=
      { source := jsOrNull t.source
        subject := jsOrNull t.subject
        customer :=
          { name := jsOrNull (custFieldName t.customer)
            email := jsOrNull (custFieldEmail t.customer) }
        message_preview := (firstMsgText t).take 180
        response_preview := (jsOrEmpty aiResponse).take 180
        flags :=
          { skip_email := o.skipEmail
            skip_ai := o.skipAI
            has_draft := optTruthy o.draftText } }
    slack := slackInfo }

/-- One awaited step inside the try block of the VARIANT `processTicket`,
with the same catch semantics as the primary (source lines 753-757). -/
def runStepV {α : Type} (tr : List CallEv) (ev : List CallEv) (out : Except Err α)
    (k : α → List CallEv → Except Err VariantResult × List CallEv) :
    Except Err VariantResult × List CallEv :=
  match out with
  | .error e => (.error e, tr ++ ev ++ [CallEv.notifyError])
  | .ok a => k a (tr ++ ev)

/-- Translation of the VARIANT `processTicket` (source lines 697-758): same
step order as the primary, but there is no customer normalization, the
skip-AI branch yields a fixed fallback sentence, and the returned result
sets `emailed` to `!skipEmail` with no condition on the response. -/
def processTicketVariant (env : Env) (t : Ticket) (o : Opts) :
    Except Err VariantResult × List CallEv :=
  runStepV [] [CallEv.storeDoc] env.storeDoc fun _ tr =>
  runStepV tr [CallEv.kbFetch] env.kbFetch fun _ tr =>
  runStepV tr (traceResolve o) (resolveResponseVariant env.genAI o) fun aiResponse tr =>
  runStepV tr (if o.skipEmail then [] else [CallEv.sendEmail])
      (if o.skipEmail then Except.ok () else env.sendEmail) fun _ tr =>
  runStepV tr [CallEv.notifySuccess] env.notifySuccess fun slackInfo tr =>
  runStepV tr [CallEv.kbUpdate] env.kbUpdate fun _ tr =>
  (.ok (mkVariantResult t o aiResponse slackInfo), tr)

/-- The raw email content built by the VARIANT `sendGmailResponse` (source
line 837): recipient and greeting read from `ticket.customer` directly. -/
def emailContentVariant (t : Ticket) (response : Str) : Str :=
  "To: ".data ++ jsTemplateOpt (custFieldEmail t.customer) ++
  "\nSubject: Re: ".data ++ jsTemplateOpt t.subject ++
  "\nContent-Type: text/plain; charset=utf-8\n\nHi ".data ++
  jsOr (custFieldName t.customer) [] ++
  ",\n\n".data ++ response ++
  "\n\nBest regards,\nCustomer Support Team\n\n---\nThis is an automated response. If you need further assistance, please reply to this email.".data

/-- Translation of the VARIANT `sendGmailResponse` (source lines 835-849):
it has NO empty/whitespace guard — the payload is built and the external
send call is invoked unconditionally (the try/catch only swallows a send
failure).  The returned value is the raw content handed to the send call,
which is always produced. -/
def sendGmailResponseVariant (t : Ticket) (response : Str) : Option Str :=
  some (emailContentVariant t response)

/-- The `draft` object of a manual /process-ticket request body. -/
structure DraftObj where
  text : Option Str := none
deriving DecidableEq

/-- A manual /process-ticket request body: the ticket fields themselves plus
the `skip_email` / `skip_ai` flags and the optional `draft` (the route passes
the whole body on as the ticket, source line 88). -/
structure ReqBody extends Ticket where
  skip_email : Option Bool := none
  skip_ai : Option Bool := none
  draft : Option DraftObj := none

/-- The two headers consulted by the /process-ticket route. -/
structure ReqHeaders where
  xSkipEmail : Option Str := none
  xSkipAI : Option Str := none
deriving DecidableEq

/-- Translation of the option extraction of the /process-ticket route
(source lines 83-87): `skip_email === true` or header `=== '1'`, and
`draftText = body.draft?.text || null` (an absent draft, absent text, or
empty text all collapse to null). -/
def routeOpts (body : ReqBody) (h : ReqHeaders) : Opts :=
  { skipEmail := decide (body.skip_email = some true) ||
      decide (h.xSkipEmail = some "1".data)
    skipAI := decide (body.skip_ai = some true) ||
      decide (h.xSkipAI = some "1".data)
    draftText :=
      match body.draft with
      | none => none
      | some d =>
        match d.text with
        | none => none
        | some s => if s.isEmpty then none else some s }

/-- The /process-ticket route invoking the pipeline on the request body
(source line 88): the body itself is the ticket. -/
def processTicketRoute (env : Env) (body : ReqBody) (h : ReqHeaders) :
    Except Err PipelineResult × List CallEv :=
  processTicket env body.toTicket (routeOpts body h)

theorem processTicket_ok_inv (env : Env) (t : Ticket) (o : Opts)
    (r : PipelineResult) (tr : List CallEv)
    (h : processTicket env t o = (.ok r, tr)) :
    ∃ a si, resolveResponse env.genAI o = .ok a ∧ env.notifySuccess = .ok si ∧
      r = mkResult t o (normalizeCustomer env.jsonParse t) a si := by
  unfold processTicket runStep at h
  cases h1 : env.storeDoc with
  | error e => rw [h1] at h; simp at h
  | ok u1 =>
  rw [h1] at h
  cases h2 : env.kbFetch with
  | error e => rw [h2] at h; simp at h
  | ok u2 =>
  rw [h2] at h
  cases h3 : resolveResponse env.genAI o with
  | error e => rw [h3] at h; simp at h
  | ok a =>
  rw [h3] at h
  cases h4 : (if o.skipEmail then Except.ok () else env.sendEmail) with
  | error e => rw [h4] at h; simp at h
  | ok u4 =>
  rw [h4] at h
  cases h5 : env.notifySuccess with
  | error e => rw [h5] at h; simp at h
  | ok si =>
  rw [h5] at h
  cases h6 : env.kbUpdate with
  | error e => rw [h6] at h; simp at h
  | ok u6 =>
  rw [h6] at h
  simp only [Prod.mk.injEq, Except.ok.injEq] at h
  exact ⟨a, si, rfl, rfl, h.1.symm⟩

theorem genAI_mem_trace (env : Env) (t : Ticket) (o : Opts)
    (h1 : env.storeDoc = .ok ()) (ctx : KBContext) (h2 : env.kbFetch = .ok ctx)
    (hg : genCalled o = true) :
    CallEv.genAI ∈ (processTicket env t o).2 := by
  have htr : traceResolve o = [CallEv.genAI] := by simp [traceResolve, hg]
  unfold processTicket runStep
  rw [h1, h2, htr]
  cases h3 : resolveResponse env.genAI o with
  | error e => simp
  | ok a =>
    cases h4 : (if o.skipEmail then Except.ok () else env.sendEmail) with
    | error e => simp
    | ok u4 =>
      cases h5 : env.notifySuccess with
      | error e => simp
      | ok si =>
        cases h6 : env.kbUpdate with
        | error e => simp
        | ok u6 => simp

theorem dropWhile_eq_nil_of_all {p : Char → Bool} {s : Str} (h : s.all p = true) :
    s.dropWhile p = [] := by
  induction s with
  | nil => rfl
  | cons a as ih =>
    simp only [List.all_cons, Bool.and_eq_true] at h
    simp [List.dropWhile, h.1, ih h.2]

theorem jsTrim_eq_nil_of_all_ws {s : Str} (h : s.all Char.isWhitespace = true) :
    jsTrim s = [] := by
  unfold jsTrim
  rw [dropWhile_eq_nil_of_all h]
  rfl

def sampleGen : Str := "Please reset your password.".data

def siW : Option SlackInfo := some { channel := some "C123".data, ts := some "171.001".data }

def envW : Env :=
  { jsonParse := fun _ => none
    storeDoc := .ok ()
    kbFetch := .ok getKnowledgeBaseContext
    genAI := .ok sampleGen
    sendEmail := .ok ()
    notifySuccess := .ok siW
    notifyError := .ok none
    kbUpdate := .ok () }

def tW : Ticket :=
  { id := some "T1".data
    subject := some "Help".data
    source := some "manual".data
    messages := [{ body := some "I cannot log in".data }] }

def oW : Opts := {}

def rW : PipelineResult :=
  mkResult tW oW (normalizeCustomer envW.jsonParse tW) (some sampleGen) siW

def trW : List CallEv :=
  [.storeDoc, .kbFetch, .genAI, .sendEmail, .notifySuccess, .kbUpdate]

def eW : Err := { msg := "boom".data }

def envE : Env := { envW with kbFetch := .error eW }

/-- C1: if an exception escapes one of the non-best-effort steps of
`processTicket` — the knowledge-base fetch or the response resolution
(customer normalization is a total function in this model, so its disjunct
is vacuous) — the orchestrator attempts exactly one error-path chat
notification, the outcome of that attempt (including a failure) does not
change the behavior (it is swallowed), and the original error is re-raised
instead of a result being returned. -/
theorem processTicket_error_notify_once (env : Env) (t : Ticket) (o : Opts) (e : Err)
    (h : (env.storeDoc = .ok () ∧ env.kbFetch = .error e) ∨
         (env.storeDoc = .ok () ∧ (∃ ctx, env.kbFetch = .ok ctx) ∧
          genCalled o = true ∧ env.genAI = .error e)) :
    (processTicket env t o).1 = .error e ∧
    ((processTicket env t o).2.count CallEv.notifyError = 1) ∧
    (∀ ne, processTicket { env with notifyError := ne } t o = processTicket env t o) := by
  have key : (processTicket env t o).1 = Except.error e ∧
      (processTicket env t o).2.count CallEv.notifyError = 1 := by
    rcases h with ⟨h1, h2⟩ | ⟨h1, ⟨ctx, h2⟩, hg, h3⟩
    · unfold processTicket runStep
      rw [h1, h2]
      exact ⟨rfl, rfl⟩
    · have hg2 : optTruthy o.draftText = false ∧ o.skipAI = false := by
        unfold genCalled at hg
        simpa using hg
      have htr : traceResolve o = [CallEv.genAI] := by simp [traceResolve, hg]
      have hres : resolveResponse env.genAI o = Except.error e := by
        unfold resolveResponse
        rw [hg2.1, hg2.2, h3]
        rfl
      unfold processTicket runStep
      rw [h1, h2, hres, htr]
      exact ⟨rfl, rfl⟩
  exact ⟨key.1, key.2, fun ne => rfl⟩

/-- C1 witness: a concrete run whose knowledge-base fetch rejects. -/
theorem processTicket_error_notify_once_witness :
    (processTicket envE tW oW).1 = .error eW ∧
    ((processTicket envE tW oW).2.count CallEv.notifyError = 1) ∧
    (∀ ne, processTicket { envE with notifyError := ne } tW oW = processTicket envE tW oW) :=
  processTicket_error_notify_once envE tW oW eW (Or.inl ⟨rfl, rfl⟩)

def oWs : Opts := { draftText := some " ".data }

def rVW : VariantResult := mkVariantResult tW oWs (some " ".data) siW

def trVW : List CallEv :=
  [.storeDoc, .kbFetch, .sendEmail, .notifySuccess, .kbUpdate]

/-- C2 counterexample: in the cited VARIANT `processTicket` (which computes
`emailed: !skipEmail` with no response condition), a whitespace-only draft
(which survives the route coercion, being truthy) yields a returned result
with `emailed = true` although the resolved response text is whitespace-only
— there is no resolved response with a non-empty trim.  This falsifies the
claim as frozen on the variant. -/
theorem variant_emailed_without_response :
    processTicketVariant envW tW oWs = (.ok rVW, trVW) ∧
    rVW.emailed = true ∧
    ¬ ∃ s, resolveResponseVariant envW.genAI oWs = .ok (some s) ∧
        (jsTrim s).isEmpty = false := by
  refine ⟨rfl, rfl, ?_⟩
  rintro ⟨s, hs, hne⟩
  have hsv : resolveResponseVariant envW.genAI oWs = .ok (some " ".data) := rfl
  rw [hsv] at hs
  simp only [Except.ok.injEq, Option.some.injEq] at hs
  subst hs
  exact absurd hne (by decide)

/-- C2 amended: for the PRIMARY `processTicket`, whenever it returns a result
whose `emailed` field is true, the `skipEmail` option was false and the
resolved response text was a string containing a non-whitespace character
(its trim is non-empty).  (The variant sets `emailed` to `!skipEmail` with
no response condition, per the counterexample.) -/
theorem processTicket_emailed_only_if (env : Env) (t : Ticket) (o : Opts)
    (r : PipelineResult) (tr : List CallEv)
    (h : processTicket env t o = (.ok r, tr)) (he : r.emailed = true) :
    o.skipEmail = false ∧
    ∃ s, resolveResponse env.genAI o = .ok (some s) ∧ (jsTrim s).isEmpty = false := by
  obtain ⟨a, si, hres, hns, hr⟩ := processTicket_ok_inv env t o r tr h
  subst hr
  simp only [mkResult, Bool.and_eq_true, Bool.not_eq_true'] at he
  refine ⟨he.1, ?_⟩
  cases a with
  | none => simp [respTruthyTrim] at he
  | some s =>
    have hs := he.2
    simp only [respTruthyTrim, Bool.and_eq_true, Bool.not_eq_true'] at hs
    exact ⟨s, hres, hs.2⟩

/-- C2 witness: a concrete successful run that emailed. -/
theorem processTicket_emailed_only_if_witness :
    oW.skipEmail = false ∧
    ∃ s, resolveResponse envW.genAI oW = .ok (some s) ∧ (jsTrim s).isEmpty = false :=
  processTicket_emailed_only_if envW tW oW rW trW rfl (by decide)

/-- C3 counterexample: the cited VARIANT `sendGmailResponse` has no
empty/whitespace guard, so even an all-whitespace response produces a send
invocation (a send payload is always built and handed to the external send
call) — the send call is reachable under the claimed precondition. -/
theorem variant_send_on_whitespace :
    sendGmailResponseVariant tW " ".data ≠ none ∧
    " ".data.all Char.isWhitespace = true :=
  ⟨by simp [sendGmailResponseVariant], by decide⟩

/-- C3 amended: for the PRIMARY `sendGmailResponse`, a response that is empty
or all-whitespace makes it return early without invoking the external
mail-send capability (no send payload is produced).  (The variant invokes
the send unconditionally, per the counterexample.) -/
theorem sendGmailResponse_empty_guard (t : Ticket) (c : Customer) (s : Str)
    (h : s.all Char.isWhitespace = true) :
    sendGmailResponse t c (some s) = none := by
  have hz : (jsTrim s).isEmpty = true := by
    rw [jsTrim_eq_nil_of_all_ws h]
    rfl
  unfold sendGmailResponse
  simp [hz]

/-- C3 witness: a single-space response is not sent. -/
theorem sendGmailResponse_empty_guard_witness :
    sendGmailResponse tW { name := [], email := [] } (some " ".data) = none :=
  sendGmailResponse_empty_guard tW { name := [], email := [] } " ".data (by decide)

/-- C4: on a returned result, `used_ai` is true exactly when `skipAI` is
false and no (truthy) draft text was supplied; an empty draft string counts
as no draft, matching the coercion the manual route performs. -/
theorem processTicket_used_ai_iff (env : Env) (t : Ticket) (o : Opts)
    (r : PipelineResult) (tr : List CallEv)
    (h : processTicket env t o = (.ok r, tr)) :
    (r.used_ai = true ↔ (o.skipAI = false ∧ optTruthy o.draftText = false)) := by
  obtain ⟨a, si, hres, hns, hr⟩ := processTicket_ok_inv env t o r tr h
  subst hr
  simp [mkResult, Bool.and_eq_true, Bool.not_eq_true']

/-- C4 witness: the concrete successful run used the AI. -/
theorem processTicket_used_ai_iff_witness :
    (rW.used_ai = true ↔ (oW.skipAI = false ∧ optTruthy oW.draftText = false)) :=
  processTicket_used_ai_iff envW tW oW rW trW rfl

/-- C5 counterexample: the claim bounds the chat response preview by 200
characters, but the variant Slack notifier appends a three-character
ellipsis after truncating to 200, so a 201-character response yields a
203-character preview. -/
theorem chat_preview_exceeds_200 :
    ¬ ((variantResponsePreview (some (List.replicate 201 'a'))).length ≤ 200) := by
  have hlen : (variantResponsePreview (some (List.replicate 201 'a'))).length = 203 := by
    unfold variantResponsePreview jsOrEmpty
    rw [List.length_append, List.length_take, List.length_replicate]
    norm_num
  omega

/-- C5 amended: the response preview in the pipeline result is at most 180
characters, the chat response preview of the variant notifier is at most 203
characters (200 truncated plus a 3-character ellipsis when longer), and the
customer-message excerpt of the chat notification is at most 500 characters. -/
theorem preview_bounds_amended (env : Env) (t : Ticket) (o : Opts)
    (r : PipelineResult) (tr : List CallEv) (resp : Option Str)
    (h : processTicket env t o = (.ok r, tr)) :
    r.summary.response_preview.length ≤ 180 ∧
    (variantResponsePreview resp).length ≤ 203 ∧
    (slackCustomerMessage t).length ≤ 500 := by
  obtain ⟨a, si, hres, hns, hr⟩ := processTicket_ok_inv env t o r tr h
  subst hr
  refine ⟨?_, ?_, ?_⟩
  · simp only [mkResult, List.length_take]
    omega
  · unfold variantResponsePreview
    rw [List.length_append, List.length_take]
    have h3 : ("...".data : Str).length = 3 := by decide
    split
    · rw [h3]; omega
    · simp only [List.length_nil]; omega
  · unfold slackCustomerMessage
    rw [List.length_take]
    omega

/-- C5 amended witness: the bounds at a concrete successful run. -/
theorem preview_bounds_amended_witness :
    rW.summary.response_preview.length ≤ 180 ∧
    (variantResponsePreview (some sampleGen)).length ≤ 203 ∧
    (slackCustomerMessage tW).length ≤ 500 :=
  preview_bounds_amended envW tW oW rW trW (some sampleGen) rfl

/-- C6: a ticket whose customer field is a (non-empty) JSON-encoded string
that parses to an object produces the same normalized pair as the same
ticket with the parsed object in place of the string. -/
theorem normalizeCustomer_json_string_eq_object (jsonParse : Str → Option CustObj)
    (t : Ticket) (s : Str) (c : CustObj)
    (hc : t.customer = .strF s) (hs : s ≠ []) (hp : jsonParse s = some c) :
    normalizeCustomer jsonParse t =
      normalizeCustomer jsonParse { t with customer := .objF c } := by
  have hne : s.isEmpty = false := by
    cases s with
    | nil => exact absurd rfl hs
    | cons a as => rfl
  unfold normalizeCustomer
  rw [hc]
  simp [jsOrCust, custTruthy, hne, hp]

def custW : CustObj := { name := some "Ana".data, email := some "a@x.com".data }

def parseW : Str → Option CustObj := fun s => if s = "x".data then some custW else none

def tJsonW : Ticket := { customer := .strF "x".data }

/-- C6 witness: a concrete JSON-string customer versus its parsed object. -/
theorem normalizeCustomer_json_string_eq_object_witness :
    normalizeCustomer parseW tJsonW =
      normalizeCustomer parseW { tJsonW with customer := .objF custW } :=
  normalizeCustomer_json_string_eq_object parseW tJsonW "x".data custW rfl
    (by decide) (by decide)

/-- C7: a ticket whose customer field is a string that fails to parse, with
no Customer alias and no top-level name/email aliases, normalizes to the
pair of empty strings (and, by the return type of `normalizeCustomer`, both
fields are always strings, never null). -/
theorem normalizeCustomer_unparsable_empty (jsonParse : Str → Option CustObj)
    (t : Ticket) (s : Str)
    (hc : t.customer = .strF s) (hC : t.Customer = .undef)
    (hp : jsonParse s = none)
    (h1 : t.customer_name = none) (h2 : t.CustomerName = none)
    (h3 : t.Name = none) (h4 : t.name = none)
    (h5 : t.customer_email = none) (h6 : t.CustomerEmail = none)
    (h7 : t.Email = none) (h8 : t.email = none) :
    normalizeCustomer jsonParse t = { name := [], email := [] } := by
  unfold normalizeCustomer
  rw [hc, hC]
  cases s with
  | nil =>
    simp [jsOrCust, custTruthy, jsOr, jsOrStr, h1, h2, h3, h4, h5, h6, h7, h8]
  | cons a as =>
    simp [jsOrCust, custTruthy, jsOr, jsOrStr, hp, h1, h2, h3, h4, h5, h6, h7, h8]

def parseNoneW : Str → Option CustObj := fun _ => none

def tBadW : Ticket := { customer := .strF "zz".data }

/-- C7 witness: a concrete unparsable customer string yields empty fields. -/
theorem normalizeCustomer_unparsable_empty_witness :
    normalizeCustomer parseNoneW tBadW = { name := [], email := [] } :=
  normalizeCustomer_unparsable_empty parseNoneW tBadW "zz".data rfl rfl rfl
    rfl rfl rfl rfl rfl rfl rfl rfl

/-- C8: with an object-valued customer field, the normalized name and email
are each the first present-and-non-empty value in the precedence order
nested lowercase, nested capitalized, top-level snake_case, top-level
PascalCase, top-level capitalized, top-level lowercase. -/
theorem normalizeCustomer_alias_precedence (jsonParse : Str → Option CustObj)
    (t : Ticket) (c : CustObj) (hc : t.customer = .objF c) :
    normalizeCustomer jsonParse t =
      { name := firstPresent
          [c.name, c.Name, t.customer_name, t.CustomerName, t.Name, t.name]
        email := firstPresent
          [c.email, c.Email, t.customer_email, t.CustomerEmail, t.Email, t.email] } := by
  unfold normalizeCustomer
  rw [hc]
  simp only [jsOrCust, custTruthy, if_true, firstPresent_cons, firstPresent_nil, jsOrStr_nil]

def tAliasW : Ticket :=
  { customer := .objF custW
    customer_name := some "TopName".data
    name := some "lowname".data
    customer_email := some "top@x.com".data }

/-- C8 witness: precedence at a concrete ticket carrying several aliases. -/
theorem normalizeCustomer_alias_precedence_witness :
    normalizeCustomer parseW tAliasW =
      { name := firstPresent
          [custW.name, custW.Name, tAliasW.customer_name, tAliasW.CustomerName,
            tAliasW.Name, tAliasW.name]
        email := firstPresent
          [custW.email, custW.Email, tAliasW.customer_email, tAliasW.CustomerEmail,
            tAliasW.Email, tAliasW.email] } :=
  normalizeCustomer_alias_precedence parseW tAliasW custW rfl

/-- C9: whenever `processTicket` returns a result rather than raising, the
`ok` field of that result is true; the pipeline itself never produces an
ok-false result (the route layer builds its own ok-false body on a throw). -/
theorem processTicket_ok_field_true (env : Env) (t : Ticket) (o : Opts)
    (r : PipelineResult) (tr : List CallEv)
    (h : processTicket env t o = (.ok r, tr)) : r.ok = true := by
  obtain ⟨a, si, hres, hns, hr⟩ := processTicket_ok_inv env t o r tr h
  subst hr
  rfl

/-- C9 witness: the concrete successful run has ok true. -/
theorem processTicket_ok_field_true_witness : rW.ok = true :=
  processTicket_ok_field_true envW tW oW rW trW rfl

/-- C10: a manual request whose draft has an empty text field is handled as
if no draft were supplied: the route coerces the draft text to null, the
extracted options (and hence the whole pipeline run) coincide with those of
the draft-free request, and when `skipAI` is not set the generation step is
invoked and a returned result has `used_ai` true. -/
theorem route_empty_draft_as_none (env : Env) (body : ReqBody) (hs : ReqHeaders)
    (hd : body.draft = some { text := some [] })
    (h1 : env.storeDoc = .ok ()) (ctx : KBContext) (h2 : env.kbFetch = .ok ctx) :
    (routeOpts body hs).draftText = none ∧
    routeOpts body hs = routeOpts { body with draft := none } hs ∧
    processTicketRoute env body hs = processTicketRoute env { body with draft := none } hs ∧
    ((routeOpts body hs).skipAI = false →
      CallEv.genAI ∈ (processTicketRoute env body hs).2 ∧
      ∀ r tr, processTicketRoute env body hs = (.ok r, tr) → r.used_ai = true) := by
  have hdt : (routeOpts body hs).draftText = none := by
    simp [routeOpts, hd]
  have hopts : routeOpts body hs = routeOpts { body with draft := none } hs := by
    simp [routeOpts, hd]
  refine ⟨hdt, hopts, ?_, ?_⟩
  · unfold processTicketRoute
    rw [hopts]
  · intro hai
    have hg : genCalled (routeOpts body hs) = true := by
      simp [genCalled, hai, hdt, optTruthy]
    constructor
    · exact genAI_mem_trace env body.toTicket (routeOpts body hs) h1 ctx h2 hg
    · intro r tr hpr
      obtain ⟨a, si, hres, hns, hr⟩ :=
        processTicket_ok_inv env body.toTicket (routeOpts body hs) r tr hpr
      subst hr
      simp [mkResult, hai, hdt, optTruthy]

def bodyW : ReqBody := { toTicket := tW, draft := some { text := some [] } }

def hdrW : ReqHeaders := {}

/-- C10 witness: a concrete manual request carrying an empty draft text. -/
theorem route_empty_draft_as_none_witness :
    (routeOpts bodyW hdrW).draftText = none ∧
    routeOpts bodyW hdrW = routeOpts { bodyW with draft := none } hdrW ∧
    processTicketRoute envW bodyW hdrW = processTicketRoute envW { bodyW with draft := none } hdrW ∧
    ((routeOpts bodyW hdrW).skipAI = false →
      CallEv.genAI ∈ (processTicketRoute envW bodyW hdrW).2 ∧
      ∀ r tr, processTicketRoute envW bodyW hdrW = (.ok r, tr) → r.used_ai = true) :=
  route_empty_draft_as_none envW bodyW hdrW rfl rfl getKnowledgeBaseContext rfl
